import Mathlib

/-!
Verification of the map-poster composition pipeline (`src/create_map_poster.py`,
`src/app.py`) against its natural-language specification.

The Python functions are shallowly embedded: machine reals become exact
rationals (`ℚ`), exceptions become an explicit error type threaded through
`Except`, and the filesystem / network environment becomes explicit input data
(`FileRead`, outcome streams).  Each definition mirrors one source function and
keeps its name where Lean allows it.
-/

namespace MapPoster

/-- Python exception values that the pipeline can raise, by class and message.
`cacheError` models `CacheError` (create_map_poster.py line 36), `valueError`
and `runtimeError` the built-ins raised by `get_coordinates` and
`create_poster`. -/
inductive PyError where
  | cacheError (msg : String)
  | valueError (msg : String)
  | runtimeError (msg : String)
  deriving DecidableEq, Repr

/-- Outcome of reading one cache file from durable storage: the file is
absent, readable with a deserialized value, or the read raises an I/O or
unpickling exception. -/
inductive FileRead (α : Type) where
  | missing
  | ok (v : α)
  | ioError (msg : String)
  deriving DecidableEq, Repr

/-- Embedding of `cache_get` (create_map_poster.py lines 84-104): an absent
file returns `None`; a successful read returns the value; any exception during
the read is re-raised as `CacheError("Cache read failed: ...")`. -/
def cache_get {α : Type} (read : FileRead α) : Except PyError (Option α) :=
  match read with
  | .missing => .ok none
  | .ok v => .ok (some v)
  | .ioError m => .error (.cacheError ("Cache read failed: " ++ m))

/-- Outcome of one would-be live call to the geocoding provider
(`geolocator.geocode`): the call raises, returns no match (`None`), or returns
a located point. -/
inductive GeoOutcome where
  | raise (msg : String)
  | notFound
  | found (lat lon : ℚ)
  deriving DecidableEq, Repr

/-- Environment of one `get_coordinates` run: the cache-read outcome for the
`coords_{city}_{country}` key, the stream of outcomes successive live geocode
calls would produce, and whether a cache write would succeed. -/
structure GeoEnv where
  cacheRead : FileRead (ℚ × ℚ)
  live : ℕ → GeoOutcome
  writeOk : Bool

/-- Equality of `Except` values is decidable when it is on both sides; used
to compare observable run results. -/
instance {ε α : Type} [DecidableEq ε] [DecidableEq α] : DecidableEq (Except ε α) :=
  fun a b =>
    match a, b with
    | .ok x, .ok y =>
      if h : x = y then .isTrue (congrArg Except.ok h)
      else .isFalse (fun hh => h (Except.ok.inj hh))
    | .error x, .error y =>
      if h : x = y then .isTrue (congrArg Except.error h)
      else .isFalse (fun hh => h (Except.error.inj hh))
    | .ok _, .error _ => .isFalse (fun hh => Except.noConfusion hh)
    | .error _, .ok _ => .isFalse (fun hh => Except.noConfusion hh)

/-- Observable trace of one `get_coordinates` run: the returned point or the
exception propagated to the caller, how many live geocode calls were made, how
many seconds were slept before them, how many cache writes were attempted, and
whether a cache-write failure was caught and logged. -/
structure GeoResult where
  result : Except PyError (ℚ × ℚ)
  liveCalls : ℕ
  sleepSecs : ℚ
  cacheWrites : ℕ
  loggedWriteError : Bool
  deriving DecidableEq, Repr

/-- Embedding of `get_coordinates` (create_map_poster.py lines 336-387).
`cache_get` is called with no surrounding handler, so a failing cache read
propagates as `CacheError`.  On a hit the cached pair is returned.  On a miss
the code sleeps 1 second and makes exactly one call to `geolocator.geocode`:
an exception is re-raised as `ValueError`, a `None` result raises
`ValueError`, and a located point is written to the cache (a `CacheError`
from the write is caught and printed) and returned. -/
def get_coordinates (env : GeoEnv) : GeoResult :=
  match cache_get env.cacheRead with
  | .error e => ⟨.error e, 0, 0, 0, false⟩
  | .ok (some c) => ⟨.ok c, 0, 0, 0, false⟩
  | .ok none =>
    match env.live 0 with
    | .raise m => ⟨.error (.valueError ("Geocoding failed: " ++ m)), 1, 1, 0, false⟩
    | .notFound => ⟨.error (.valueError "Could not find coordinates"), 1, 1, 0, false⟩
    | .found la lo => ⟨.ok (la, lo), 1, 1, 1, !env.writeOk⟩

/-- Value of an edge's raw `highway` attribute in OSM data: a plain string or
a list of strings. -/
inductive TagValue where
  | str (s : String)
  | strList (l : List String)
  deriving DecidableEq, Repr

/-- The effective highway tag used for classification
(create_map_poster.py lines 281-285 and 314-317): `data.get('highway',
'unclassified')` defaults an absent attribute to `"unclassified"`, and a list
value is replaced by its first element (or `"unclassified"` when empty). -/
def effective_highway : Option TagValue → String
  | none => "unclassified"
  | some (.str s) => s
  | some (.strList []) => "unclassified"
  | some (.strList (s :: _)) => s

/-- Semantic color role assigned to a road edge; the theme dictionary maps
each role to a concrete color value. -/
inductive ColorRole where
  | road_motorway
  | road_primary
  | road_secondary
  | road_tertiary
  | road_residential
  | road_default
  deriving DecidableEq, Repr

/-- Per-tag color decision inside `get_edge_colors_by_type`
(create_map_poster.py lines 288-299): the if/elif chain over tag lists,
ending in the `road_default` catch-all. -/
def edge_color (highway : String) : ColorRole :=
  if highway ∈ (["motorway", "motorway_link"] : List String) then .road_motorway
  else if highway ∈ (["trunk", "trunk_link", "primary", "primary_link"] : List String) then
    .road_primary
  else if highway ∈ (["secondary", "secondary_link"] : List String) then .road_secondary
  else if highway ∈ (["tertiary", "tertiary_link"] : List String) then .road_tertiary
  else if highway ∈ (["residential", "living_street", "unclassified"] : List String) then
    .road_residential
  else .road_default

/-- Per-tag stroke-width decision inside `get_edge_widths_by_type`
(create_map_poster.py lines 320-329); the Python floats 1.2, 1.0, 0.8, 0.6,
0.4 are embedded as the exact rationals they denote in the source text. -/
def edge_width (highway : String) : ℚ :=
  if highway ∈ (["motorway", "motorway_link"] : List String) then 6/5
  else if highway ∈ (["trunk", "trunk_link", "primary", "primary_link"] : List String) then 1
  else if highway ∈ (["secondary", "secondary_link"] : List String) then 4/5
  else if highway ∈ (["tertiary", "tertiary_link"] : List String) then 3/5
  else 2/5

/-- A street-graph edge, carrying its raw `highway` attribute (absent, string
or list). -/
structure Edge where
  highway : Option TagValue
  deriving DecidableEq, Repr

/-- A street graph as the list of its edges, in iteration order of
`g.edges(data=True)`. -/
structure Graph where
  edges : List Edge
  deriving DecidableEq, Repr

/-- Embedding of `get_edge_colors_by_type` (create_map_poster.py lines
272-303): one color role per edge, in edge order.  Projection
(`ox.project_graph`) preserves edge attributes, so the function is modelled
on the graph itself. -/
def get_edge_colors_by_type (g : Graph) : List ColorRole :=
  g.edges.map (fun e => edge_color (effective_highway e.highway))

/-- Embedding of `get_edge_widths_by_type` (create_map_poster.py lines
306-333): one stroke width per edge, in edge order. -/
def get_edge_widths_by_type (g : Graph) : List ℚ :=
  g.edges.map (fun e => edge_width (effective_highway e.highway))

/-- Embedding of `get_crop_limits` (create_map_poster.py lines 390-423) after
projecting the center: both half-extents start at the requested radius
`dist`; a landscape canvas (`aspect > 1`) reduces the vertical half-extent to
`dist / aspect`, otherwise the horizontal one is reduced to `dist * aspect`.
Returns the `(xlim, ylim)` pair, each centered on the projected center. -/
def get_crop_limits (center_x center_y aspect dist : ℚ) : (ℚ × ℚ) × (ℚ × ℚ) :=
  let half_x : ℚ := if aspect > 1 then dist else dist * aspect
  let half_y : ℚ := if aspect > 1 then dist / aspect else dist
  ((center_x - half_x, center_x + half_x), (center_y - half_y, center_y + half_y))

/-- The compensated fetch radius computed by `create_poster`
(create_map_poster.py line 523):
`dist * (max(height, width) / min(height, width)) / 4`. -/
def compensated_dist (dist width height : ℚ) : ℚ :=
  dist * (max height width / min height width) / 4

/-- Cardinal letter for a latitude (create_map_poster.py line 573):
`'N' if lat >= 0 else 'S'`. -/
def lat_cardinal (lat : ℚ) : Char :=
  if lat ≥ 0 then 'N' else 'S'

/-- Cardinal letter for a longitude (create_map_poster.py line 573):
`'E' if lon >= 0 else 'W'`. -/
def lon_cardinal (lon : ℚ) : Char :=
  if lon ≥ 0 then 'E' else 'W'

/-- The semantic content of the coordinate caption
`f"{abs(lat):.4f}° {'N' if lat>=0 else 'S'} / {abs(lon):.4f}° {'E' if lon>=0 else 'W'}"`:
the printed magnitudes are the absolute values (before decimal formatting)
and the two cardinal letters. -/
structure CoordCaption where
  latMag : ℚ
  latCard : Char
  lonMag : ℚ
  lonCard : Char
  deriving DecidableEq, Repr

/-- Builds the coordinate caption of create_map_poster.py lines 572-573. -/
def coord_caption (lat lon : ℚ) : CoordCaption :=
  ⟨|lat|, lat_cardinal lat, |lon|, lon_cardinal lon⟩

/-- A text character as the embedding sees it: its Unicode code point,
whether Python's `str.isalpha` holds for it, and the code point of its
uppercase form (`str.upper`), all taken as input data. -/
structure MChar where
  code : ℕ
  alpha : Bool
  upper : ℕ
  deriving DecidableEq, Repr

/-- Embedding of `is_latin_script` (create_map_poster.py lines 131-161):
empty text or text with no alphabetic character counts as Latin; otherwise
the text is Latin exactly when the fraction of alphabetic characters with
code point below 0x250 strictly exceeds 0.8.  The Python float quotient is
embedded as the exact rational quotient, which agrees with the float
comparison for all realistic label lengths. -/
def is_latin_script (text : List MChar) : Bool :=
  if text.isEmpty then true
  else
    let total_alpha := (text.filter (fun c => c.alpha)).length
    let latin_count := (text.filter (fun c => c.alpha && decide (c.code < 0x250))).length
    if total_alpha = 0 then true
    else decide ((latin_count : ℚ) / (total_alpha : ℚ) > 8/10)

/-- The two-space separator inserted by `"  ".join(...)` between characters
of a Latin city name (create_map_poster.py line 561). -/
def spacing_marker : List ℕ := [32, 32]

/-- `"  ".join(list(s))` on a list of character codes: the characters with
the two-space marker between each adjacent pair. -/
def spaced_join : List ℕ → List ℕ
  | [] => []
  | [c] => [c]
  | c :: c2 :: rest => c :: (spacing_marker ++ spaced_join (c2 :: rest))

/-- `s.upper()` as the per-character uppercase code points. -/
def upper_codes (text : List MChar) : List ℕ :=
  text.map (fun c => c.upper)

/-- The city label painted by `create_poster` (create_map_poster.py line
561): `"  ".join(list(display_city.upper()))` when the text is judged Latin,
the text unchanged otherwise. -/
def rendered_city (text : List MChar) : List ℕ :=
  if is_latin_script text then spaced_join (upper_codes text)
  else text.map (fun c => c.code)

/-- Whether a rendered label contains a space character (code 32), the
visible inter-character spacing marker. -/
def has_spacing (l : List ℕ) : Bool :=
  l.contains 32

/-- A tagged feature collection (water or parks) as the list of its
geometries; `geoms = []` models an empty GeoDataFrame (`df.empty`). -/
structure FeatureCollection where
  geoms : List ℕ
  deriving DecidableEq, Repr

/-- Embedding of `fetch_graph` (create_map_poster.py lines 426-458).  The
unprotected `cache_get` call lets a failing cache read propagate; a cached
graph (`is not None`) is returned; on a miss the live fetch either yields the
graph (which is written to the cache, a write failure only printed) or fails,
in which case the exception is printed and `None` is returned. -/
def fetch_graph (cacheRead : FileRead Graph) (live : Except String Graph) :
    Except PyError (Option Graph) :=
  match cache_get cacheRead with
  | .error e => .error e
  | .ok (some g) => .ok (some g)
  | .ok none =>
    match live with
    | .ok g => .ok (some g)
    | .error _ => .ok none

/-- Embedding of `fetch_features` (create_map_poster.py lines 461-496), same
shape as `fetch_graph`: cache-read errors propagate, a cached collection is
returned, a failed live fetch is printed and `None` is returned. -/
def fetch_features (cacheRead : FileRead FeatureCollection)
    (live : Except String FeatureCollection) : Except PyError (Option FeatureCollection) :=
  match cache_get cacheRead with
  | .error e => .error e
  | .ok (some fc) => .ok (some fc)
  | .ok none =>
    match live with
    | .ok fc => .ok (some fc)
    | .error _ => .ok none

/-- The aggregate request consumed by one `create_poster` call, mirroring its
parameter list (create_map_poster.py lines 499-518); text parameters are
model characters, numeric parameters exact rationals. -/
structure PosterRequest where
  city : List MChar
  country : List MChar
  point : ℚ × ℚ
  dist : ℚ
  width : ℚ
  height : ℚ
  country_label : Option (List MChar)
  name_label : Option (List MChar)
  display_city : Option (List MChar)
  display_country : Option (List MChar)
  city_scale : ℚ
  country_scale : ℚ
  line_scale : ℚ
  custom_text : Option (List MChar)
  custom_text_size : ℚ

/-- Python's `a or b` on an optional text value: a present, non-empty text
wins, otherwise the default is used (`None` and `""` are both falsy). -/
def or_default : Option (List MChar) → List MChar → List MChar
  | some (c :: cs), _ => c :: cs
  | _, d => d

/-- Environment of one `create_poster` run: cache-read and live-fetch
outcomes for the street graph and the two feature collections. -/
structure PosterEnv where
  graphRead : FileRead Graph
  graphLive : Except String Graph
  waterRead : FileRead FeatureCollection
  waterLive : Except String FeatureCollection
  parksRead : FileRead FeatureCollection
  parksLive : Except String FeatureCollection

/-- Observable trace of a completed `create_poster` run: the radius handed to
the fetchers, how many water and park geometries were painted, the per-edge
road styling, and each painted text with its axes-fraction height.  `custom`
is the optional custom caption content paired with its fixed height 0.04;
`coordPainted` records that the coordinate caption was painted (the code has
no flag suppressing it). -/
structure RenderTrace where
  fetch_dist : ℚ
  waterPainted : ℕ
  parksPainted : ℕ
  edgeColors : List ColorRole
  edgeWidths : List ℚ
  cityText : List ℕ
  cityY : ℚ
  countryText : List ℕ
  countryY : ℚ
  coordPainted : Bool
  coordCaption : CoordCaption
  coordY : ℚ
  custom : Option (List ℕ × ℚ)
  deriving DecidableEq, Repr

/-- Embedding of `create_poster` (create_map_poster.py lines 499-584).  The
compensated radius of line 523 is handed to `fetch_graph` and both
`fetch_features` calls; a `None` graph raises `RuntimeError` before any
canvas exists, so no file is written; a `None` or empty feature collection
paints zero geometries; the city label of line 561 is spaced when Latin; the
coordinate caption of lines 572-575 is always painted at height 0.07; a
truthy `custom_text` is painted at the fixed height 0.04 (line 580); on
success `plt.savefig` writes exactly the requested output file.  The second
component lists the files written during the run. -/
def create_poster (env : PosterEnv) (req : PosterRequest) (output_file : String) :
    Except PyError RenderTrace × List String :=
  let compensated := compensated_dist req.dist req.width req.height
  match fetch_graph env.graphRead env.graphLive with
  | .error e => (.error e, [])
  | .ok none => (.error (.runtimeError "could not fetch map data"), [])
  | .ok (some g) =>
    match fetch_features env.waterRead env.waterLive with
    | .error e => (.error e, [])
    | .ok water =>
      match fetch_features env.parksRead env.parksLive with
      | .error e => (.error e, [])
      | .ok parks =>
        let effCity := or_default req.display_city (or_default req.name_label req.city)
        let effCountry := or_default req.display_country
          (or_default req.country_label req.country)
        (.ok
          { fetch_dist := compensated
            waterPainted := (match water with | some fc => fc.geoms.length | none => 0)
            parksPainted := (match parks with | some fc => fc.geoms.length | none => 0)
            edgeColors := get_edge_colors_by_type g
            edgeWidths := (get_edge_widths_by_type g).map (fun w => w * req.line_scale)
            cityText := rendered_city effCity
            cityY := 14/100
            countryText := upper_codes effCountry
            countryY := 1/10
            coordPainted := true
            coordCaption := coord_caption req.point.1 req.point.2
            coordY := 7/100
            custom := (match req.custom_text with
              | some (c :: cs) => some (((c :: cs)).map (fun ch => ch.code), 4/100)
              | _ => none) },
          [output_file])

/-- The keyword parameters `create_poster` accepts (create_map_poster.py
lines 499-518). -/
def create_poster_params : List String :=
  ["city", "country", "point", "dist", "output_file", "output_format", "width", "height",
   "country_label", "name_label", "display_city", "display_country", "fonts",
   "city_scale", "country_scale", "line_scale", "custom_text", "custom_text_size"]

/-- The keyword arguments `app.py` passes in its `create_poster` call
(app.py lines 301-314). -/
def app_create_poster_kwargs : List String :=
  ["city", "country", "point", "dist", "output_file", "output_format",
   "city_scale", "country_scale", "line_scale", "custom_text", "custom_text_size",
   "show_coords"]

/-- The trace of a composition result, when it completed. -/
def render_result (r : Except PyError RenderTrace) : Option RenderTrace :=
  match r with
  | .ok t => some t
  | .error _ => none

/-- The model characters of the label "TAIPEI": all alphabetic, all Latin
(code points below 0x250), each its own uppercase form. -/
def taipei : List MChar :=
  [⟨84, true, 84⟩, ⟨65, true, 65⟩, ⟨73, true, 73⟩, ⟨80, true, 80⟩, ⟨69, true, 69⟩,
   ⟨73, true, 73⟩]

/-- The model characters of the label "東京" (U+6771, U+4EAC): alphabetic for
Python's `str.isalpha`, outside the Latin ranges, fixed by `str.upper`. -/
def tokyo : List MChar :=
  [⟨26481, true, 26481⟩, ⟨20140, true, 20140⟩]

/-- A geocoding environment whose cache read raises an I/O error while the
live geocoder would answer immediately. -/
def failingReadGeoEnv : GeoEnv :=
  ⟨.ioError "Permission denied", fun _ => .found 25 121, true⟩

/-- The same geocoding environment with the cache entry merely absent. -/
def absentReadGeoEnv : GeoEnv :=
  ⟨.missing, fun _ => .found 25 121, true⟩

/-- A geocoding environment on a cache miss whose first live call raises a
transient error while every later attempt would succeed. -/
def transientGeoEnv : GeoEnv :=
  ⟨.missing, fun n => if n = 0 then .raise "connection timeout"
    else .found (2503/100) (12156/100), true⟩

/-- A geocoding environment on a cache miss whose live call succeeds but
whose cache write fails. -/
def writeFailGeoEnv : GeoEnv :=
  ⟨.missing, fun _ => .found 25 121, false⟩

/-- A two-edge demo street graph: one motorway edge, one edge with no
`highway` attribute. -/
def demoGraph : Graph :=
  ⟨[⟨some (.str "motorway")⟩, ⟨none⟩]⟩

/-- A composition environment with all three layers cached (two water
geometries, no park geometries) and the network offline. -/
def demoPosterEnv : PosterEnv :=
  ⟨.ok demoGraph, .error "offline", .ok ⟨[7, 8]⟩, .error "offline", .ok ⟨[]⟩,
   .error "offline"⟩

/-- A composition environment where the water fetch misses the cache and the
live water fetch fails, with graph and parks cached. -/
def waterFailPosterEnv : PosterEnv :=
  ⟨.ok demoGraph, .error "offline", .missing, .error "Overpass timeout", .ok ⟨[]⟩,
   .error "offline"⟩

/-- A composition environment where the street-graph fetch misses the cache
and the live graph fetch fails. -/
def graphFailPosterEnv : PosterEnv :=
  ⟨.missing, .error "Overpass timeout", .missing, .error "Overpass timeout", .missing,
   .error "Overpass timeout"⟩

/-- A demo poster request: TAIPEI / TW at (25.03, 121.56), nominal radius
10000 m on the default 12 x 16 canvas, with a custom caption "HI". -/
def demoReq : PosterRequest :=
  { city := taipei
    country := [⟨84, true, 84⟩, ⟨87, true, 87⟩]
    point := (2503/100, 12156/100)
    dist := 10000
    width := 12
    height := 16
    country_label := none
    name_label := none
    display_city := none
    display_country := none
    city_scale := 1
    country_scale := 1
    line_scale := 1
    custom_text := some [⟨72, true, 72⟩, ⟨73, true, 73⟩]
    custom_text_size := 18 }

/-- Claim C10: at the zero boundary of the coordinate caption, latitude 0 is
rendered with cardinal letter N and longitude 0 with E, because the cardinal
choice tests the signed value with `>= 0`; the printed magnitude is the
absolute value, so a nonzero coordinate and its negation show the same
magnitude with opposite cardinal letters. -/
theorem coord_cardinal_zero_boundary (x : ℚ) (hx : x ≠ 0) :
    lat_cardinal 0 = 'N' ∧ lon_cardinal 0 = 'E' ∧
    (coord_caption (-x) (-x)).latMag = (coord_caption x x).latMag ∧
    (coord_caption (-x) (-x)).lonMag = (coord_caption x x).lonMag ∧
    lat_cardinal (-x) ≠ lat_cardinal x ∧
    lon_cardinal (-x) ≠ lon_cardinal x := by
  have habs : |(-x)| = |x| := abs_neg x
  refine ⟨rfl, rfl, habs, habs, ?_, ?_⟩ <;>
  · rcases lt_or_gt_of_ne hx with h | h
    · have h1 : ¬ x ≥ 0 := not_le.mpr h
      have h2 : -x ≥ 0 := by linarith
      simp only [lat_cardinal, lon_cardinal, h1, h2, if_true, if_false, if_pos, if_neg,
        not_false_eq_true]
      decide
    · have h1 : x ≥ 0 := le_of_lt h
      have h2 : ¬ -x ≥ 0 := by simp; linarith
      simp only [lat_cardinal, lon_cardinal, h1, h2, if_pos, if_neg, not_false_eq_true]
      decide

/-- Witness for C10 at the concrete coordinate 5. -/
theorem coord_cardinal_zero_boundary_witness :
    (5 : ℚ) ≠ 0 ∧
    (lat_cardinal 0 = 'N' ∧ lon_cardinal 0 = 'E' ∧
      (coord_caption (-5) (-5)).latMag = (coord_caption 5 5).latMag ∧
      (coord_caption (-5) (-5)).lonMag = (coord_caption 5 5).lonMag ∧
      lat_cardinal (-5) ≠ lat_cardinal 5 ∧
      lon_cardinal (-5) ≠ lon_cardinal 5) :=
  ⟨by norm_num, coord_cardinal_zero_boundary 5 (by norm_num)⟩

/-- Claim C5: the crop window is centered on the projected center on both
axes; for aspect > 1 the x extent is exactly 2 * radius and the y half-extent
is radius / aspect; for aspect <= 1 the y half-extent is radius and the x
half-extent is radius * aspect; the cropped axis is reduced inward, never
expanded. -/
theorem crop_limits_spec (cx cy a r : ℚ) (hr : 0 < r) (ha : 0 < a) :
    (get_crop_limits cx cy a r).1.1 + (get_crop_limits cx cy a r).1.2 = 2 * cx ∧
    (get_crop_limits cx cy a r).2.1 + (get_crop_limits cx cy a r).2.2 = 2 * cy ∧
    (1 < a →
      (get_crop_limits cx cy a r).1.2 - (get_crop_limits cx cy a r).1.1 = 2 * r ∧
      (get_crop_limits cx cy a r).2.2 - (get_crop_limits cx cy a r).2.1 = 2 * (r / a) ∧
      r / a < r) ∧
    (a ≤ 1 →
      (get_crop_limits cx cy a r).2.2 - (get_crop_limits cx cy a r).2.1 = 2 * r ∧
      (get_crop_limits cx cy a r).1.2 - (get_crop_limits cx cy a r).1.1 = 2 * (r * a) ∧
      r * a ≤ r) := by
  by_cases h : a > 1
  · simp only [get_crop_limits, h, if_pos]
    refine ⟨by ring, by ring, fun _ => ⟨by ring, by ring, div_lt_self hr h⟩,
      fun hle => absurd h (not_lt.mpr hle)⟩
  · simp only [get_crop_limits, h, if_neg, if_false]
    have hle : a ≤ 1 := not_lt.mp h
    refine ⟨by ring, by ring, fun hlt => hlt.elim, fun _ => ⟨by ring, by ring, ?_⟩⟩
    calc r * a ≤ r * 1 := by
          exact mul_le_mul_of_nonneg_left hle (le_of_lt hr)
      _ = r := mul_one r

/-- Witness for C5 at center (3, 4), aspect 2, radius 6. -/
theorem crop_limits_spec_witness :
    (0 : ℚ) < 6 ∧ (0 : ℚ) < 2 ∧
    ((get_crop_limits 3 4 2 6).1.1 + (get_crop_limits 3 4 2 6).1.2 = 2 * 3 ∧
      (get_crop_limits 3 4 2 6).2.1 + (get_crop_limits 3 4 2 6).2.2 = 2 * 4 ∧
      ((1 : ℚ) < 2 →
        (get_crop_limits 3 4 2 6).1.2 - (get_crop_limits 3 4 2 6).1.1 = 2 * 6 ∧
        (get_crop_limits 3 4 2 6).2.2 - (get_crop_limits 3 4 2 6).2.1 = 2 * ((6 : ℚ) / 2) ∧
        (6 : ℚ) / 2 < 6) ∧
      ((2 : ℚ) ≤ 1 →
        (get_crop_limits 3 4 2 6).2.2 - (get_crop_limits 3 4 2 6).2.1 = 2 * 6 ∧
        (get_crop_limits 3 4 2 6).1.2 - (get_crop_limits 3 4 2 6).1.1 = 2 * ((6 : ℚ) * 2) ∧
        (6 : ℚ) * 2 ≤ 6)) :=
  ⟨by norm_num, by norm_num, crop_limits_spec 3 4 2 6 (by norm_num) (by norm_num)⟩

/-- Counterexample for C2: at the default canvas (width 12, height 16) and
nominal radius 18000, the compensated fetch radius is 6000, strictly smaller
than the nominal radius, refuting the claim that it is strictly larger. -/
theorem compensated_dist_smaller_cex :
    compensated_dist 18000 12 16 = 6000 ∧ ¬ (18000 < compensated_dist 18000 12 16) := by
  constructor <;> norm_num [compensated_dist]

/-- Claim C2 (amended): the fetch radius equals
`dist * (max height width / min height width) / 4`, and it exceeds the nominal
radius exactly when the ratio of the longer canvas dimension to the shorter
one exceeds 4 (for the default 12 x 16 canvas it is dist / 3, smaller). -/
theorem compensated_dist_spec (d w h : ℚ) (hd : 0 < d) (hw : 0 < w) (hh : 0 < h) :
    compensated_dist d w h = d * (max h w / min h w) / 4 ∧
    (d < compensated_dist d w h ↔ 4 < max h w / min h w) ∧
    (∀ (env : PosterEnv) (req : PosterRequest) (f : String) (tr : RenderTrace),
      (create_poster env req f).1 = .ok tr →
      tr.fetch_dist = compensated_dist req.dist req.width req.height) := by
  refine ⟨rfl, ?_, ?_⟩
  · unfold compensated_dist
    rw [lt_div_iff₀ (by norm_num : (0 : ℚ) < 4), mul_comm d (max h w / min h w),
      mul_comm d 4, mul_lt_mul_right hd]
  · intro env req f tr htr
    unfold create_poster at htr
    rcases hfg : fetch_graph env.graphRead env.graphLive with e | og
    · rw [hfg] at htr
      exact Except.noConfusion htr
    · rcases og with _ | g
      · rw [hfg] at htr
        exact Except.noConfusion htr
      · rw [hfg] at htr
        rcases hfw : fetch_features env.waterRead env.waterLive with e | water
        · rw [hfw] at htr
          exact Except.noConfusion htr
        · rw [hfw] at htr
          rcases hfp : fetch_features env.parksRead env.parksLive with e | parks
          · rw [hfp] at htr
            exact Except.noConfusion htr
          · rw [hfp] at htr
            injection htr with htr2
            rw [← htr2]

/-- Witness for C2 at dist 18000 on the default 12 x 16 canvas. -/
theorem compensated_dist_spec_witness :
    (0 : ℚ) < 18000 ∧ (0 : ℚ) < 12 ∧ (0 : ℚ) < 16 ∧
    (compensated_dist 18000 12 16 = 18000 * (max 16 12 / min 16 12) / 4 ∧
      ((18000 : ℚ) < compensated_dist 18000 12 16 ↔
        (4 : ℚ) < max 16 12 / min 16 12) ∧
      (∀ (env : PosterEnv) (req : PosterRequest) (f : String) (tr : RenderTrace),
        (create_poster env req f).1 = .ok tr →
        tr.fetch_dist = compensated_dist req.dist req.width req.height)) :=
  ⟨by norm_num, by norm_num, by norm_num,
    compensated_dist_spec 18000 12 16 (by norm_num) (by norm_num) (by norm_num)⟩

/-- Claim C6: road classification is a total deterministic function of the
effective highway tag (first element of a list, `"unclassified"` when
absent): the motorway group gets the motorway color and the widest stroke,
the trunk/primary group the next, then secondary, then tertiary;
residential/living_street/unclassified get the residential color, an
unmatched tag the default color, and both get the thinnest stroke, which
every other level strictly exceeds in the stated order. -/
theorem road_classification_spec (s : String)
    (hs : s ∉ (["motorway", "motorway_link", "trunk", "trunk_link", "primary",
      "primary_link", "secondary", "secondary_link", "tertiary", "tertiary_link",
      "residential", "living_street", "unclassified"] : List String)) :
    (∀ t ∈ (["motorway", "motorway_link"] : List String),
      edge_color t = .road_motorway ∧ edge_width t = 6/5) ∧
    (∀ t ∈ (["trunk", "trunk_link", "primary", "primary_link"] : List String),
      edge_color t = .road_primary ∧ edge_width t = 1) ∧
    (∀ t ∈ (["secondary", "secondary_link"] : List String),
      edge_color t = .road_secondary ∧ edge_width t = 4/5) ∧
    (∀ t ∈ (["tertiary", "tertiary_link"] : List String),
      edge_color t = .road_tertiary ∧ edge_width t = 3/5) ∧
    (∀ t ∈ (["residential", "living_street", "unclassified"] : List String),
      edge_color t = .road_residential ∧ edge_width t = 2/5) ∧
    edge_color s = .road_default ∧ edge_width s = 2/5 ∧
    effective_highway none = "unclassified" ∧
    effective_highway (some (.strList [])) = "unclassified" ∧
    (∀ t rest, effective_highway (some (.strList (t :: rest))) = t) ∧
    (∀ t, effective_highway (some (.str t)) = t) ∧
    edge_width "motorway" > edge_width "trunk" ∧
    edge_width "trunk" > edge_width "secondary" ∧
    edge_width "secondary" > edge_width "tertiary" ∧
    edge_width "tertiary" > edge_width s ∧
    (∀ t, edge_width s ≤ edge_width t) ∧
    (∀ g : Graph, get_edge_colors_by_type g =
      g.edges.map (fun e => edge_color (effective_highway e.highway)) ∧
      get_edge_widths_by_type g =
        g.edges.map (fun e => edge_width (effective_highway e.highway))) := by
  simp only [List.mem_cons, List.mem_singleton, not_or] at hs
  obtain ⟨h1, h2, h3, h4, h5, h6, h7, h8, h9, h10, h11, h12, h13⟩ := hs
  have hcol : edge_color s = .road_default := by
    simp [edge_color, h1, h2, h3, h4, h5, h6, h7, h8, h9, h10, h11, h12, h13]
  have hwid : edge_width s = 2/5 := by
    simp [edge_width, h1, h2, h3, h4, h5, h6, h7, h8, h9, h10, h11, h12, h13]
  have wmot : edge_width "motorway" = 6/5 := by
    unfold edge_width; rw [if_pos (by decide)]
  have wtru : edge_width "trunk" = 1 := by
    unfold edge_width; rw [if_neg (by decide), if_pos (by decide)]
  have wsec : edge_width "secondary" = 4/5 := by
    unfold edge_width; rw [if_neg (by decide), if_neg (by decide), if_pos (by decide)]
  have wter : edge_width "tertiary" = 3/5 := by
    unfold edge_width
    rw [if_neg (by decide), if_neg (by decide), if_neg (by decide), if_pos (by decide)]
  refine ⟨?_, ?_, ?_, ?_, ?_, hcol, hwid, rfl, rfl, fun t rest => rfl, fun t => rfl,
    by rw [wmot, wtru]; norm_num, by rw [wtru, wsec]; norm_num,
    by rw [wsec, wter]; norm_num, by rw [wter, hwid]; norm_num,
    ?_, fun g => ⟨rfl, rfl⟩⟩
  · intro t ht
    fin_cases ht <;>
      exact ⟨by decide, by unfold edge_width; rw [if_pos (by decide)]⟩
  · intro t ht
    fin_cases ht <;>
      exact ⟨by decide, by unfold edge_width; rw [if_neg (by decide), if_pos (by decide)]⟩
  · intro t ht
    fin_cases ht <;>
      exact ⟨by decide,
        by unfold edge_width; rw [if_neg (by decide), if_neg (by decide), if_pos (by decide)]⟩
  · intro t ht
    fin_cases ht <;>
      exact ⟨by decide,
        by unfold edge_width
           rw [if_neg (by decide), if_neg (by decide), if_neg (by decide), if_pos (by decide)]⟩
  · intro t ht
    fin_cases ht <;>
      exact ⟨by decide,
        by unfold edge_width
           rw [if_neg (by decide), if_neg (by decide), if_neg (by decide), if_neg (by decide)]⟩
  · intro t
    rw [hwid]
    unfold edge_width
    split_ifs <;> norm_num

/-- Witness for C6 at the unmatched tag "footway". -/
theorem road_classification_spec_witness :
    "footway" ∉ (["motorway", "motorway_link", "trunk", "trunk_link", "primary",
      "primary_link", "secondary", "secondary_link", "tertiary", "tertiary_link",
      "residential", "living_street", "unclassified"] : List String) ∧
    ((∀ t ∈ (["motorway", "motorway_link"] : List String),
      edge_color t = .road_motorway ∧ edge_width t = 6/5) ∧
    (∀ t ∈ (["trunk", "trunk_link", "primary", "primary_link"] : List String),
      edge_color t = .road_primary ∧ edge_width t = 1) ∧
    (∀ t ∈ (["secondary", "secondary_link"] : List String),
      edge_color t = .road_secondary ∧ edge_width t = 4/5) ∧
    (∀ t ∈ (["tertiary", "tertiary_link"] : List String),
      edge_color t = .road_tertiary ∧ edge_width t = 3/5) ∧
    (∀ t ∈ (["residential", "living_street", "unclassified"] : List String),
      edge_color t = .road_residential ∧ edge_width t = 2/5) ∧
    edge_color "footway" = .road_default ∧ edge_width "footway" = 2/5 ∧
    effective_highway none = "unclassified" ∧
    effective_highway (some (.strList [])) = "unclassified" ∧
    (∀ t rest, effective_highway (some (.strList (t :: rest))) = t) ∧
    (∀ t, effective_highway (some (.str t)) = t) ∧
    edge_width "motorway" > edge_width "trunk" ∧
    edge_width "trunk" > edge_width "secondary" ∧
    edge_width "secondary" > edge_width "tertiary" ∧
    edge_width "tertiary" > edge_width "footway" ∧
    (∀ t, edge_width "footway" ≤ edge_width t) ∧
    (∀ g : Graph, get_edge_colors_by_type g =
      g.edges.map (fun e => edge_color (effective_highway e.highway)) ∧
      get_edge_widths_by_type g =
        g.edges.map (fun e => edge_width (effective_highway e.highway)))) :=
  ⟨by decide, road_classification_spec "footway" (by decide)⟩

/-- Claim C9: the city label is uppercased with two-space inter-character
markers exactly when the text is judged primarily Latin, which holds exactly
when strictly more than 80 percent of its alphabetic characters have code
points below 0x250; concretely TAIPEI is judged Latin and rendered with
spacing markers, 東京 is not Latin and rendered unchanged without markers. -/
theorem latin_spacing_spec (text : List MChar)
    (h : 0 < (text.filter (fun c => c.alpha)).length) :
    (is_latin_script text = true ↔
      5 * (text.filter (fun c => c.alpha && decide (c.code < 0x250))).length >
        4 * (text.filter (fun c => c.alpha)).length) ∧
    (is_latin_script text = true → rendered_city text = spaced_join (upper_codes text)) ∧
    (is_latin_script text = false → rendered_city text = text.map (fun c => c.code)) ∧
    is_latin_script taipei = true ∧ has_spacing (rendered_city taipei) = true ∧
    is_latin_script tokyo = false ∧ has_spacing (rendered_city tokyo) = false ∧
    rendered_city tokyo = tokyo.map (fun c => c.code) := by
  have hta : is_latin_script taipei = true := by
    norm_num [is_latin_script, taipei, List.filter]
  have hto : is_latin_script tokyo = false := by
    norm_num [is_latin_script, tokyo, List.filter]
  have hrta : rendered_city taipei = spaced_join (upper_codes taipei) := by
    simp [rendered_city, hta]
  have hrto : rendered_city tokyo = tokyo.map (fun c => c.code) := by
    simp [rendered_city, hto]
  refine ⟨?_, fun hl => by simp [rendered_city, hl], fun hl => by simp [rendered_city, hl],
    hta, by rw [hrta]; decide, hto, by rw [hrto]; decide, hrto⟩
  have hne : text.isEmpty = false := by
    cases text with
    | nil => simp at h
    | cons a l => rfl
  have hT0 : (text.filter (fun c => c.alpha)).length ≠ 0 := Nat.pos_iff_ne_zero.mp h
  unfold is_latin_script
  rw [hne]
  simp only [Bool.false_eq_true, if_false, hT0, if_neg, decide_eq_true_eq]
  set L := (text.filter (fun c => c.alpha && decide (c.code < 0x250))).length with hL
  set T := (text.filter (fun c => c.alpha)).length with hT
  have hTQ : (0 : ℚ) < (T : ℚ) := by exact_mod_cast h
  rw [gt_iff_lt, show (8 : ℚ)/10 = 4/5 by norm_num,
    div_lt_div_iff₀ (by norm_num : (0 : ℚ) < 5) hTQ]
  constructor
  · intro hlt
    have : 4 * (T : ℚ) < (L : ℚ) * 5 := hlt
    have hn : 4 * T < L * 5 := by exact_mod_cast this
    omega
  · intro hgt
    have hn : 4 * T < L * 5 := by omega
    exact_mod_cast hn

/-- Witness for C9 at the TAIPEI label. -/
theorem latin_spacing_spec_witness :
    0 < (taipei.filter (fun c => c.alpha)).length ∧
    ((is_latin_script taipei = true ↔
      5 * (taipei.filter (fun c => c.alpha && decide (c.code < 0x250))).length >
        4 * (taipei.filter (fun c => c.alpha)).length) ∧
    (is_latin_script taipei = true →
      rendered_city taipei = spaced_join (upper_codes taipei)) ∧
    (is_latin_script taipei = false → rendered_city taipei = taipei.map (fun c => c.code)) ∧
    is_latin_script taipei = true ∧ has_spacing (rendered_city taipei) = true ∧
    is_latin_script tokyo = false ∧ has_spacing (rendered_city tokyo) = false ∧
    rendered_city tokyo = tokyo.map (fun c => c.code)) :=
  ⟨by decide, latin_spacing_spec taipei (by decide)⟩

/-- Counterexample for C1: with a failing storage read and a live geocoder
that would answer, `get_coordinates` does not behave as on an absent entry:
it propagates the `CacheError` instead of taking the live path. -/
theorem cache_read_error_not_miss_cex :
    get_coordinates failingReadGeoEnv ≠ get_coordinates absentReadGeoEnv ∧
    (get_coordinates failingReadGeoEnv).result =
      .error (.cacheError ("Cache read failed: " ++ "Permission denied")) ∧
    (get_coordinates absentReadGeoEnv).result = .ok (25, 121) := by
  refine ⟨?_, rfl, rfl⟩
  intro h
  have := congrArg GeoResult.liveCalls h
  simp [get_coordinates, cache_get, failingReadGeoEnv, absentReadGeoEnv] at this

/-- Claim C1 (amended): a failing storage read in `cache_get` raises
`CacheError`, which propagates uncaught out of `get_coordinates` (without any
live call), `fetch_graph` and `fetch_features`; only storage errors on cache
writes are recovered locally (logged, the resolved point still returned). -/
theorem cache_read_error_propagation (env env2 : GeoEnv) (m : String) (la lo : ℚ)
    (hc : env.cacheRead = .ioError m)
    (gl : Except String Graph) (fl : Except String FeatureCollection)
    (h2c : env2.cacheRead = .missing) (h2w : env2.writeOk = false)
    (h2l : env2.live 0 = .found la lo) :
    (get_coordinates env).result = .error (.cacheError ("Cache read failed: " ++ m)) ∧
    (get_coordinates env).liveCalls = 0 ∧
    fetch_graph (.ioError m) gl = .error (.cacheError ("Cache read failed: " ++ m)) ∧
    fetch_features (.ioError m) fl = .error (.cacheError ("Cache read failed: " ++ m)) ∧
    (get_coordinates env2).result = .ok (la, lo) ∧
    (get_coordinates env2).loggedWriteError = true := by
  refine ⟨?_, ?_, rfl, rfl, ?_, ?_⟩ <;>
    simp [get_coordinates, cache_get, hc, h2c, h2l, h2w]

/-- Witness for C1 (amended) at a permission-denied read and a failing
write. -/
theorem cache_read_error_propagation_witness :
    failingReadGeoEnv.cacheRead = .ioError "Permission denied" ∧
    writeFailGeoEnv.cacheRead = .missing ∧ writeFailGeoEnv.writeOk = false ∧
    writeFailGeoEnv.live 0 = .found 25 121 ∧
    ((get_coordinates failingReadGeoEnv).result =
        .error (.cacheError ("Cache read failed: " ++ "Permission denied")) ∧
      (get_coordinates failingReadGeoEnv).liveCalls = 0 ∧
      fetch_graph (.ioError "Permission denied") (.error "offline") =
        .error (.cacheError ("Cache read failed: " ++ "Permission denied")) ∧
      fetch_features (.ioError "Permission denied") (.error "offline") =
        .error (.cacheError ("Cache read failed: " ++ "Permission denied")) ∧
      (get_coordinates writeFailGeoEnv).result = .ok (25, 121) ∧
      (get_coordinates writeFailGeoEnv).loggedWriteError = true) :=
  ⟨rfl, rfl, rfl, rfl,
    cache_read_error_propagation failingReadGeoEnv writeFailGeoEnv "Permission denied"
      25 121 rfl (.error "offline") (.error "offline") rfl rfl rfl⟩

/-- Counterexample for C4: on a cache miss whose first live call fails
transiently while the second would succeed, the resolver makes exactly one
live call and raises, instead of retrying up to 3 attempts and returning the
available point. -/
theorem geocode_no_retry_cex :
    transientGeoEnv.cacheRead = .missing ∧
    transientGeoEnv.live 1 = .found (2503/100) (12156/100) ∧
    (get_coordinates transientGeoEnv).liveCalls = 1 ∧
    (get_coordinates transientGeoEnv).result =
      .error (.valueError ("Geocoding failed: " ++ "connection timeout")) ∧
    ¬ (get_coordinates transientGeoEnv).result = .ok (2503/100, 12156/100) := by
  refine ⟨rfl, rfl, rfl, rfl, ?_⟩
  intro h
  simp [get_coordinates, cache_get, transientGeoEnv] at h

/-- Claim C4 (amended): on a cache miss the resolver sleeps 1 second and then
performs exactly one live geocoding attempt (no retries): a raising call
fails the resolution immediately with `ValueError`, and a successful call
stores the resolved point in the cache and returns it. -/
theorem geocode_resolver_spec (env : GeoEnv) (hmiss : env.cacheRead = .missing) :
    (get_coordinates env).liveCalls = 1 ∧
    (get_coordinates env).sleepSecs = 1 ∧
    (∀ la lo, env.live 0 = .found la lo →
      (get_coordinates env).result = .ok (la, lo) ∧
      (get_coordinates env).cacheWrites = 1) ∧
    (∀ m, env.live 0 = .raise m →
      (get_coordinates env).result =
        .error (.valueError ("Geocoding failed: " ++ m))) := by
  unfold get_coordinates cache_get
  rw [hmiss]
  rcases h : env.live 0 with m2 | _ | ⟨la, lo⟩
  · refine ⟨rfl, rfl, fun la lo heq => GeoOutcome.noConfusion heq, fun m' heq => ?_⟩
    have h' : m2 = m' := by injection heq
    subst h'
    rfl
  · exact ⟨rfl, rfl, fun la lo heq => GeoOutcome.noConfusion heq,
      fun m' heq => GeoOutcome.noConfusion heq⟩
  · refine ⟨rfl, rfl, fun la' lo' heq => ?_, fun m' heq => GeoOutcome.noConfusion heq⟩
    have h1 : la = la' := by injection heq
    have h2 : lo = lo' := by injection heq
    subst h1
    subst h2
    exact ⟨rfl, rfl⟩

/-- Witness for C4 (amended) on an immediately successful cache miss. -/
theorem geocode_resolver_spec_witness :
    absentReadGeoEnv.cacheRead = .missing ∧
    ((get_coordinates absentReadGeoEnv).liveCalls = 1 ∧
      (get_coordinates absentReadGeoEnv).sleepSecs = 1 ∧
      (∀ la lo, absentReadGeoEnv.live 0 = .found la lo →
        (get_coordinates absentReadGeoEnv).result = .ok (la, lo) ∧
        (get_coordinates absentReadGeoEnv).cacheWrites = 1) ∧
      (∀ m, absentReadGeoEnv.live 0 = .raise m →
        (get_coordinates absentReadGeoEnv).result =
          .error (.valueError ("Geocoding failed: " ++ m)))) :=
  ⟨rfl, geocode_resolver_spec absentReadGeoEnv rfl⟩

/-- Counterexample for C7: when the live water fetch fails on a cache miss,
`fetch_features` returns the absence marker `None`, not an empty feature
collection; composition nevertheless succeeds, painting zero water
geometries and writing the output file. -/
theorem fetch_features_returns_none_cex :
    fetch_features .missing (.error "Overpass timeout") = .ok none ∧
    fetch_features .missing (.error "Overpass timeout") ≠
      .ok (some (⟨[]⟩ : FeatureCollection)) ∧
    (render_result (create_poster waterFailPosterEnv demoReq "taipei.png").1).map
      RenderTrace.waterPainted = some 0 ∧
    (create_poster waterFailPosterEnv demoReq "taipei.png").2 = ["taipei.png"] := by
  refine ⟨rfl, ?_, rfl, rfl⟩
  intro hcontra
  simp [fetch_features, cache_get] at hcontra

/-- Claim C7 (amended): when the live water fetch fails, `fetch_features`
returns `None` (an absent collection, which the composer skips exactly like
an empty one), and composition still succeeds: `create_poster` completes
without raising, paints zero geometries for the failed collection, and
writes the output file. -/
theorem fetch_features_failure_degrades (env : PosterEnv) (req : PosterRequest)
    (f m : String) (g : Graph) (pfc : FeatureCollection)
    (hg : env.graphRead = .ok g)
    (hw : env.waterRead = .missing) (hwl : env.waterLive = .error m)
    (hp : env.parksRead = .ok pfc) :
    fetch_features env.waterRead env.waterLive = .ok none ∧
    (render_result (create_poster env req f).1).map RenderTrace.waterPainted = some 0 ∧
    (create_poster env req f).2 = [f] := by
  unfold create_poster fetch_graph fetch_features cache_get
  rw [hg, hw, hwl, hp]
  exact ⟨rfl, rfl, rfl⟩

/-- Witness for C7 (amended) at the concrete water-failure environment. -/
theorem fetch_features_failure_degrades_witness :
    waterFailPosterEnv.graphRead = .ok demoGraph ∧
    waterFailPosterEnv.waterRead = .missing ∧
    waterFailPosterEnv.waterLive = .error "Overpass timeout" ∧
    waterFailPosterEnv.parksRead = .ok (⟨[]⟩ : FeatureCollection) ∧
    (fetch_features waterFailPosterEnv.waterRead waterFailPosterEnv.waterLive = .ok none ∧
      (render_result
          (create_poster waterFailPosterEnv demoReq "witness.png").1).map
        RenderTrace.waterPainted = some 0 ∧
      (create_poster waterFailPosterEnv demoReq "witness.png").2 = ["witness.png"]) :=
  ⟨rfl, rfl, rfl, rfl,
    fetch_features_failure_degrades waterFailPosterEnv demoReq "witness.png"
      "Overpass timeout" demoGraph ⟨[]⟩ rfl rfl rfl rfl⟩

/-- Claim C8: when the street-graph fetch fails (cache miss and failing live
fetch), `create_poster` aborts with an error before any rendering, and no
output file is written. -/
theorem graph_fetch_failure_aborts (env : PosterEnv) (req : PosterRequest) (f m : String)
    (h1 : env.graphRead = .missing) (h2 : env.graphLive = .error m) :
    (create_poster env req f).1 = .error (.runtimeError "could not fetch map data") ∧
    (create_poster env req f).2 = [] := by
  unfold create_poster fetch_graph cache_get
  rw [h1, h2]
  exact ⟨rfl, rfl⟩

/-- Witness for C8 at the concrete graph-failure environment. -/
theorem graph_fetch_failure_aborts_witness :
    graphFailPosterEnv.graphRead = .missing ∧
    graphFailPosterEnv.graphLive = .error "Overpass timeout" ∧
    ((create_poster graphFailPosterEnv demoReq "taipei.png").1 =
        .error (.runtimeError "could not fetch map data") ∧
      (create_poster graphFailPosterEnv demoReq "taipei.png").2 = []) :=
  ⟨rfl, rfl,
    graph_fetch_failure_aborts graphFailPosterEnv demoReq "taipei.png"
      "Overpass timeout" rfl rfl⟩

/-- Claim C3 (code bug): `app.py` passes the coordinate-caption flag
`show_coords` to `create_poster`, but `create_poster` accepts no such
parameter (the call raises `TypeError`); the function body unconditionally
paints the coordinate caption at height 0.07, and a supplied custom caption
always sits at the fixed height 0.04, so no upward adjustment exists. -/
theorem show_coords_flag_missing :
    "show_coords" ∈ app_create_poster_kwargs ∧
    "show_coords" ∉ create_poster_params ∧
    (render_result (create_poster demoPosterEnv demoReq "taipei.png").1).map
      RenderTrace.coordPainted = some true ∧
    (render_result (create_poster demoPosterEnv demoReq "taipei.png").1).map
      RenderTrace.coordY = some (7/100) ∧
    (render_result (create_poster demoPosterEnv demoReq "taipei.png").1).map
      RenderTrace.custom = some (some ([72, 73], 4/100)) :=
  ⟨by decide, by decide, rfl, rfl, rfl⟩

end MapPoster
